import Mathlib

/-!
# Exam Timer & Alert System — verification of the timer/notification core

Shallow embedding of the countdown-timer core of the exam-timer
application: the timer engine (`useTimer.ts`), the threshold classifier
(`getTimerStatus`), the alert coordinator (`useNotifications.ts`), the
violation ledger (`useViolations.ts`) and the configuration handlers of
`App.tsx`.  JavaScript numbers that hold second counts are modelled as
`Int`; the boolean phase flags and the status enum are modelled directly.
State updates performed through React's `setState` updaters are modelled
as pure functions on the state record; effects that observe the fresh
state after an update are composed after the update, in declaration
order, reflecting the platform's single-threaded event model described in
the specification.
-/

namespace ExamTimer

/-- Type `TimerStatus` from `types.ts`: `'normal' | 'warning' | 'critical'`. -/
inductive TimerStatus where
  | normal
  | warning
  | critical
deriving DecidableEq, Repr

/-- Type `TimerState` from `types.ts`: remaining seconds, the three phase
flags, and the derived status. -/
structure TimerState where
  timeRemaining : Int
  isRunning : Bool
  isPaused : Bool
  isFinished : Bool
  status : TimerStatus
deriving DecidableEq, Repr

/-- Function `getTimerStatus` from `useTimer.ts` (the Threshold Classifier):
`remaining ≤ critical → critical`, else `remaining ≤ warning → warning`,
else `normal`. -/
def getTimerStatus (timeRemaining warningThreshold criticalThreshold : Int) :
    TimerStatus :=
  if timeRemaining ≤ criticalThreshold then .critical
  else if timeRemaining ≤ warningThreshold then .warning
  else .normal

/-- The second-valued configuration as held inside `useTimer`
(`initialDuration = duration * 60`, `warningThreshold = warningAt * 60`,
`criticalThreshold = criticalAt * 60`). -/
structure TimerConfig where
  initialDuration : Int
  warningThreshold : Int
  criticalThreshold : Int
deriving DecidableEq, Repr

/-- The validated-configuration precondition of the specification:
`0 ≤ critical < warning < total`. -/
def ValidConfig (cfg : TimerConfig) : Prop :=
  0 ≤ cfg.criticalThreshold ∧
  cfg.criticalThreshold < cfg.warningThreshold ∧
  cfg.warningThreshold < cfg.initialDuration

instance (cfg : TimerConfig) : Decidable (ValidConfig cfg) := by
  unfold ValidConfig; infer_instance

/-- The initial `useState` value of `useTimer`: full duration, all flags
false, status computed by the classifier. -/
def initTimerState (cfg : TimerConfig) : TimerState :=
  { timeRemaining := cfg.initialDuration
    isRunning := false
    isPaused := false
    isFinished := false
    status := getTimerStatus cfg.initialDuration cfg.warningThreshold
        cfg.criticalThreshold }

/-- The `setTimerState` updater inside `startInterval`'s interval
callback (`useTimer.ts` lines 117–150): if remaining is already ≤ 0 just
mark finished; otherwise decrement, and either finish (clamping to 0 and
hard-coding status `critical`) or store the decrement with the
recomputed status. -/
def tickUpdate (cfg : TimerConfig) (prev : TimerState) : TimerState :=
  if prev.timeRemaining ≤ 0 then
    { prev with isRunning := false, isFinished := true }
  else
    let newTimeRemaining := prev.timeRemaining - 1
    let newStatus := getTimerStatus newTimeRemaining cfg.warningThreshold
        cfg.criticalThreshold
    if newTimeRemaining ≤ 0 then
      { prev with
          timeRemaining := 0
          isRunning := false
          isFinished := true
          status := .critical }
    else
      { prev with timeRemaining := newTimeRemaining, status := newStatus }

/-- The `start` updater of `useTimer.ts`: no-op when finished or when
already running un-paused, otherwise set running and clear paused. -/
def start (prev : TimerState) : TimerState :=
  if prev.isFinished then prev
  else if prev.isRunning && !prev.isPaused then prev
  else { prev with isRunning := true, isPaused := false }

/-- The `pause` updater of `useTimer.ts`: no-op unless running and not
finished, otherwise clear running and set paused. -/
def pause (prev : TimerState) : TimerState :=
  if !prev.isRunning || prev.isFinished then prev
  else { prev with isRunning := false, isPaused := true }

/-- The `toggle` updater of `useTimer.ts`: no-op when finished, pause
when running, otherwise start. -/
def toggle (prev : TimerState) : TimerState :=
  if prev.isFinished then prev
  else if prev.isRunning then { prev with isRunning := false, isPaused := true }
  else { prev with isRunning := true, isPaused := false }

/-- The `reset` action of `useTimer.ts`: set the exact fresh state (full
duration, all flags cleared, classifier-computed status). -/
def reset (cfg : TimerConfig) (_prev : TimerState) : TimerState :=
  initTimerState cfg

/-- The operations through which the UI and the clock source drive the
engine. -/
inductive TimerOp where
  | start
  | pause
  | toggle
  | tick
  | reset
deriving DecidableEq, Repr

/-- One engine transition.  A `tick` is delivered only while the
interval is armed: the arming effect of `useTimer.ts` (lines 237–245)
keeps an interval exactly while `isRunning && !isFinished`, and `pause`,
`toggle` and `reset` clear it synchronously, so a tick delivered in any
other state does not occur and is modelled as a no-op. -/
def applyOp (cfg : TimerConfig) (s : TimerState) : TimerOp → TimerState
  | .start => start s
  | .pause => pause s
  | .toggle => toggle s
  | .tick => if s.isRunning && !s.isFinished then tickUpdate cfg s else s
  | .reset => reset cfg s

/-- Run a list of operations from a state. -/
def applyOps (cfg : TimerConfig) (s : TimerState) : List TimerOp → TimerState
  | [] => s
  | op :: ops => applyOps cfg (applyOp cfg s op) ops

/-- A state is reachable when some operation sequence produces it from
the initial state. -/
def Reachable (cfg : TimerConfig) (s : TimerState) : Prop :=
  ∃ ops : List TimerOp, s = applyOps cfg (initTimerState cfg) ops

/-! ## Alert Coordinator (`useNotifications.ts`) -/

/-- The three one-shot alerts the coordinator can fire; the strings
added to `alertsShownRef` in `useNotifications.ts` are
`'warning'`, `'critical'` and `'finished'`. -/
inductive AlertKind where
  | warning
  | critical
  | finished
deriving DecidableEq, Repr

/-- The coordinator's mutable per-run record: `prevTimeRef` and the
membership of each of the three tags in `alertsShownRef`. -/
structure AlertState where
  prevTime : Int
  shownWarning : Bool
  shownCritical : Bool
  shownFinished : Bool
deriving DecidableEq, Repr

/-- Membership of an alert tag in `alertsShownRef`. -/
def AlertState.shown (a : AlertState) : AlertKind → Bool
  | .warning => a.shownWarning
  | .critical => a.shownCritical
  | .finished => a.shownFinished

/-- The refs as first created by `useNotifications`: `prevTimeRef`
starts at the observed `timeRemaining` and `alertsShownRef` starts
empty. -/
def initAlertState (timeRemaining : Int) : AlertState :=
  { prevTime := timeRemaining
    shownWarning := false
    shownCritical := false
    shownFinished := false }

/-- The crossing test used by the warning and critical branches:
`prevTime > threshold && timeRemaining <= threshold`. -/
def crossed (threshold prevTime timeRemaining : Int) : Bool :=
  decide (threshold < prevTime) && decide (timeRemaining ≤ threshold)

/-- The alert effect of `useNotifications.ts` (lines 170–225), as a
function from the observed engine snapshot and the coordinator state to
the new coordinator state and the alerts fired during this run of the
effect.  When `!isRunning || isFinished` it only refreshes
`prevTimeRef`; otherwise the three independent crossing checks run in
order, each guarded by its `alertsShownRef` tag, and `prevTimeRef` is
set to the observed time at the end. -/
def alertEffect (warningThreshold criticalThreshold : Int)
    (timeRemaining : Int) (isRunning isFinished : Bool)
    (a : AlertState) : AlertState × List AlertKind :=
  if !isRunning || isFinished then
    ({ a with prevTime := timeRemaining }, [])
  else
    let fw := crossed warningThreshold a.prevTime timeRemaining &&
      !a.shownWarning
    let fc := crossed criticalThreshold a.prevTime timeRemaining &&
      !a.shownCritical
    let ff := decide (0 < a.prevTime) && decide (timeRemaining = 0) &&
      !a.shownFinished
    ({ prevTime := timeRemaining
       shownWarning := a.shownWarning || fw
       shownCritical := a.shownCritical || fc
       shownFinished := a.shownFinished || ff },
     (if fw then [AlertKind.warning] else []) ++
       (if fc then [AlertKind.critical] else []) ++
       (if ff then [AlertKind.finished] else []))

/-- The alert-reset effect of `useNotifications.ts` (lines 230–235):
when the timer is neither running nor finished and remaining time sits
above the warning threshold, clear `alertsShownRef` and refresh
`prevTimeRef`. -/
def alertResetEffect (warningThreshold : Int) (timeRemaining : Int)
    (isRunning isFinished : Bool) (a : AlertState) : AlertState :=
  if !isRunning && !isFinished && decide (warningThreshold < timeRemaining) then
    { prevTime := timeRemaining
      shownWarning := false
      shownCritical := false
      shownFinished := false }
  else a

/-- One engine snapshot as observed by the coordinator: the properties
`useNotifications` receives from `App.tsx` that its alert effect reads. -/
structure Obs where
  timeRemaining : Int
  isRunning : Bool
  isFinished : Bool
deriving DecidableEq, Repr

/-- Deliver a sequence of snapshots to the alert effect, collecting
every alert fired. -/
def alertRun (warningThreshold criticalThreshold : Int) (a : AlertState) :
    List Obs → AlertState × List AlertKind
  | [] => (a, [])
  | o :: os =>
    let step := alertEffect warningThreshold criticalThreshold
      o.timeRemaining o.isRunning o.isFinished a
    let rest := alertRun warningThreshold criticalThreshold step.1 os
    (rest.1, step.2 ++ rest.2)

/-! ## Composed system: engine + coordinator, wired as in `App.tsx` -/

/-- Engine state together with the coordinator's refs. -/
structure SysState where
  timer : TimerState
  alerts : AlertState
deriving DecidableEq, Repr

/-- Initial composed state: fresh engine state, coordinator refs
initialised from it. -/
def sysInit (cfg : TimerConfig) : SysState :=
  { timer := initTimerState cfg
    alerts := initAlertState cfg.initialDuration }

/-- One composed step: the engine transition runs, then the
coordinator's two effects observe the fresh state in declaration order
(alert effect, then alert-reset effect), as React runs them after the
commit of the state update. -/
def sysStep (cfg : TimerConfig) (s : SysState) (op : TimerOp) :
    SysState × List AlertKind :=
  let t := applyOp cfg s.timer op
  let step := alertEffect cfg.warningThreshold cfg.criticalThreshold
    t.timeRemaining t.isRunning t.isFinished s.alerts
  let a := alertResetEffect cfg.warningThreshold t.timeRemaining
    t.isRunning t.isFinished step.1
  ({ timer := t, alerts := a }, step.2)

/-- Run a list of operations through the composed system, collecting
every alert fired. -/
def sysRun (cfg : TimerConfig) (s : SysState) :
    List TimerOp → SysState × List AlertKind
  | [] => (s, [])
  | op :: ops =>
    let step := sysStep cfg s op
    let rest := sysRun cfg step.1 ops
    (rest.1, step.2 ++ rest.2)

/-! ## Configuration surface (`App.tsx`) -/

/-- The `examConfig` state of `App.tsx`, in minutes. -/
structure ExamConfig where
  duration : Int
  warningAt : Int
  criticalAt : Int
deriving DecidableEq, Repr

/-- Flag `isConfigLocked` in `App.tsx`: the exam has started (running, paused
or finished). -/
def isConfigLocked (t : TimerState) : Bool :=
  t.isRunning || t.isPaused || t.isFinished

/-- Handler `handleDurationChange` in `App.tsx`: when unlocked, set the duration
and clamp the warning threshold below it. -/
def handleDurationChange (locked : Bool) (c : ExamConfig) (minutes : Int) :
    ExamConfig :=
  if locked then c
  else
    { duration := minutes
      warningAt := min c.warningAt (minutes - 1)
      criticalAt := c.criticalAt }

/-- Handler `handleWarningChange` in `App.tsx`: when unlocked, set the warning
threshold and clamp the critical threshold below it. -/
def handleWarningChange (locked : Bool) (c : ExamConfig) (minutes : Int) :
    ExamConfig :=
  if locked then c
  else
    { duration := c.duration
      warningAt := minutes
      criticalAt := min c.criticalAt (minutes - 1) }

/-- Handler `handleCriticalChange` in `App.tsx`: when unlocked, set the critical
threshold. -/
def handleCriticalChange (locked : Bool) (c : ExamConfig) (minutes : Int) :
    ExamConfig :=
  if locked then c else { c with criticalAt := minutes }

/-- The minute-to-second conversion performed where `useTimer` and
`useNotifications` consume `examConfig`. -/
def toSeconds (c : ExamConfig) : TimerConfig :=
  { initialDuration := c.duration * 60
    warningThreshold := c.warningAt * 60
    criticalThreshold := c.criticalAt * 60 }

/-- The reconfiguration effect of `useTimer.ts` (lines 262–272): while
the timer is neither running, paused nor finished, replace the whole
state with the fresh state of the (possibly new) configuration;
otherwise leave the state alone. -/
def idleReconfigEffect (cfg : TimerConfig) (t : TimerState) : TimerState :=
  if !t.isRunning && !t.isPaused && !t.isFinished then initTimerState cfg
  else t

/-! ## Violation Ledger (`useViolations.ts`) -/

/-- Type `ViolationType` from `types.ts`. -/
inductive ViolationType where
  | MULTIPLE_FACES
  | TAB_SWITCH
  | PROHIBITED_APP
deriving DecidableEq, Repr

/-- Table `VIOLATION_LABELS` from `types.ts`. -/
def VIOLATION_LABELS : ViolationType → String
  | .MULTIPLE_FACES => "Multiple Faces Detected"
  | .TAB_SWITCH => "Tab Switch Detected"
  | .PROHIBITED_APP => "Prohibited Application Detected"

/-- A `Violation` from `types.ts`.  `id` comes from the external
`generateId()` and `timestamp` from `new Date()`; both are opaque to the
ledger's logic and are modelled as naturals supplied by the caller. -/
structure Violation where
  id : Nat
  type : ViolationType
  timestamp : Nat
  message : String
deriving DecidableEq, Repr

/-- Action `addViolation` in `useViolations.ts`: append a freshly built record
(`[...prev, newViolation]`). -/
def addViolation (id timestamp : Nat) (type : ViolationType)
    (prev : List Violation) : List Violation :=
  prev ++ [{ id := id
             type := type
             timestamp := timestamp
             message := VIOLATION_LABELS type }]

/-- Action `clearViolations` in `useViolations.ts`: the ledger becomes empty. -/
def clearViolations (_ : List Violation) : List Violation := []

/-- The `Record<ViolationType, number>` produced by `countByType`: one
count per known type, present even at zero. -/
structure CountRecord where
  MULTIPLE_FACES : Nat
  TAB_SWITCH : Nat
  PROHIBITED_APP : Nat
deriving DecidableEq, Repr

/-- Read the count of one type out of the record. -/
def CountRecord.get (r : CountRecord) : ViolationType → Nat
  | .MULTIPLE_FACES => r.MULTIPLE_FACES
  | .TAB_SWITCH => r.TAB_SWITCH
  | .PROHIBITED_APP => r.PROHIBITED_APP

/-- The body of the `forEach` loop of `countByType`: bump the entry of
one violation's type. -/
def bumpCount (counts : CountRecord) (v : Violation) : CountRecord :=
  match v.type with
  | .MULTIPLE_FACES =>
    { counts with MULTIPLE_FACES := counts.MULTIPLE_FACES + 1 }
  | .TAB_SWITCH => { counts with TAB_SWITCH := counts.TAB_SWITCH + 1 }
  | .PROHIBITED_APP =>
    { counts with PROHIBITED_APP := counts.PROHIBITED_APP + 1 }

/-- Derived read `countByType` in `useViolations.ts`: start from all-zero counts and
bump the entry of each violation's type in order. -/
def countByType (violations : List Violation) : CountRecord :=
  violations.foldl bumpCount
    { MULTIPLE_FACES := 0, TAB_SWITCH := 0, PROHIBITED_APP := 0 }

/-- A sequence of `addViolation` calls, each with its externally
supplied id and timestamp. -/
def addAll (prev : List Violation) :
    List (Nat × Nat × ViolationType) → List Violation
  | [] => prev
  | (i, ts, ty) :: rest => addAll (addViolation i ts ty prev) rest

/-- Handler `handleRestart` in `App.tsx`: `timer.reset()` then
`violations.clearViolations()`; after the commit the coordinator's two
effects observe the fresh timer state. -/
def handleRestart (cfg : TimerConfig) (s : SysState) (l : List Violation) :
    SysState × List Violation :=
  ((sysStep cfg s .reset).1, clearViolations l)

/-! ## Engine invariants -/

/-- Status coherence: the stored status is exactly the classifier of the
stored remaining time. -/
def StatusInv (cfg : TimerConfig) (s : TimerState) : Prop :=
  s.status = getTimerStatus s.timeRemaining cfg.warningThreshold
    cfg.criticalThreshold

/-- Structural invariant of the engine: at most one phase flag is set,
a non-finished state holds at least one remaining second, and a finished
state holds exactly zero. -/
def EngineInv (s : TimerState) : Prop :=
  s.isRunning.toNat + s.isPaused.toNat + s.isFinished.toNat ≤ 1 ∧
  (s.isFinished = false → 1 ≤ s.timeRemaining) ∧
  (s.isFinished = true → s.timeRemaining = 0)

/-- At most one of the three phase flags is set (the exclusivity part of
`EngineInv` alone, provable with no configuration hypothesis). -/
def FlagsInv (s : TimerState) : Prop :=
  s.isRunning.toNat + s.isPaused.toNat + s.isFinished.toNat ≤ 1

lemma getTimerStatus_zero (w c : Int) (hc : 0 ≤ c) :
    getTimerStatus 0 w c = .critical := by
  simp [getTimerStatus, hc]

lemma statusInv_init (cfg : TimerConfig) : StatusInv cfg (initTimerState cfg) :=
  rfl

lemma statusInv_applyOp {cfg : TimerConfig} (hc : 0 ≤ cfg.criticalThreshold)
    {s : TimerState} (h : StatusInv cfg s) (op : TimerOp) :
    StatusInv cfg (applyOp cfg s op) := by
  cases op with
  | start =>
    simp only [applyOp, start, StatusInv] at h ⊢
    split
    · exact h
    · split
      · exact h
      · simpa using h
  | pause =>
    simp only [applyOp, pause, StatusInv] at h ⊢
    split
    · exact h
    · simpa using h
  | toggle =>
    simp only [applyOp, toggle, StatusInv] at h ⊢
    split
    · exact h
    · split <;> simpa using h
  | reset =>
    simp only [applyOp, reset, StatusInv, initTimerState]
  | tick =>
    simp only [applyOp]
    split
    · simp only [tickUpdate, StatusInv] at h ⊢
      split
      · simpa using h
      · split
        · rename_i hle hle2
          have hz : s.timeRemaining - 1 = 0 := by omega
          simp [hz, getTimerStatus_zero _ _ hc]
        · simp
    · exact h

lemma statusInv_applyOps {cfg : TimerConfig} (hc : 0 ≤ cfg.criticalThreshold)
    {s : TimerState} (h : StatusInv cfg s) (ops : List TimerOp) :
    StatusInv cfg (applyOps cfg s ops) := by
  induction ops generalizing s with
  | nil => exact h
  | cons op ops ih => exact ih (statusInv_applyOp hc h op)

lemma statusInv_reachable {cfg : TimerConfig} (hc : 0 ≤ cfg.criticalThreshold)
    {s : TimerState} (h : Reachable cfg s) : StatusInv cfg s := by
  obtain ⟨ops, rfl⟩ := h
  exact statusInv_applyOps hc (statusInv_init cfg) ops

lemma engineInv_init {cfg : TimerConfig} (ht : 1 ≤ cfg.initialDuration) :
    EngineInv (initTimerState cfg) := by
  refine ⟨by simp [initTimerState], ?_, by simp [initTimerState]⟩
  intro _
  simpa [initTimerState] using ht

lemma engineInv_applyOp {cfg : TimerConfig} (ht : 1 ≤ cfg.initialDuration)
    {s : TimerState} (h : EngineInv s) (op : TimerOp) :
    EngineInv (applyOp cfg s op) := by
  obtain ⟨hflags, hlive, hfin⟩ := h
  cases op with
  | start =>
    simp only [applyOp, start]
    split
    · exact ⟨hflags, hlive, hfin⟩
    · split
      · exact ⟨hflags, hlive, hfin⟩
      · rename_i hnf _
        refine ⟨?_, ?_, ?_⟩ <;>
          simp_all [Bool.not_eq_true]
  | pause =>
    simp only [applyOp, pause]
    split
    · exact ⟨hflags, hlive, hfin⟩
    · rename_i hcond
      refine ⟨?_, ?_, ?_⟩ <;> simp_all
  | toggle =>
    simp only [applyOp, toggle]
    split
    · exact ⟨hflags, hlive, hfin⟩
    · split
      · refine ⟨?_, ?_, ?_⟩ <;> simp_all
      · refine ⟨?_, ?_, ?_⟩ <;> simp_all
  | reset => exact engineInv_init ht
  | tick =>
    simp only [applyOp]
    split
    · rename_i harm
      have hrun : s.isRunning = true := by
        cases hr : s.isRunning <;> simp [hr] at harm ⊢
      have hnf : s.isFinished = false := by
        cases hf : s.isFinished
        · rfl
        · simp [hf] at harm
      have h1 : 1 ≤ s.timeRemaining := hlive hnf
      simp only [tickUpdate]
      split
      · omega
      · split
        · refine ⟨?_, ?_, ?_⟩ <;> simp_all
        · refine ⟨?_, ?_, ?_⟩
          · simp_all
          · simp_all; omega
          · simp_all
    · exact ⟨hflags, hlive, hfin⟩

lemma engineInv_applyOps {cfg : TimerConfig} (ht : 1 ≤ cfg.initialDuration)
    {s : TimerState} (h : EngineInv s) (ops : List TimerOp) :
    EngineInv (applyOps cfg s ops) := by
  induction ops generalizing s with
  | nil => exact h
  | cons op ops ih => exact ih (engineInv_applyOp ht h op)

lemma engineInv_reachable {cfg : TimerConfig} (ht : 1 ≤ cfg.initialDuration)
    {s : TimerState} (h : Reachable cfg s) : EngineInv s := by
  obtain ⟨ops, rfl⟩ := h
  exact engineInv_applyOps ht (engineInv_init ht) ops

/-! ## Coordinator lemmas -/

lemma alertEffect_shown_mono (w c t : Int) (r f : Bool) (a : AlertState)
    (k : AlertKind) (h : a.shown k = true) :
    ((alertEffect w c t r f a).1).shown k = true := by
  cases k <;> simp only [alertEffect] <;> split <;>
    simp_all [AlertState.shown]

/-- Exact count of one alert kind fired by a single run of the alert
effect: one exactly when its `alertsShownRef` tag flips from absent to
present, zero otherwise. -/
lemma alertEffect_count (w c t : Int) (r f : Bool) (a : AlertState)
    (k : AlertKind) :
    ((alertEffect w c t r f a).2).count k =
      (if a.shown k = false ∧ ((alertEffect w c t r f a).1).shown k = true
        then 1 else 0) := by
  cases k <;> simp only [alertEffect] <;> split
  · simp [AlertState.shown]
  · cases hsw : a.shownWarning <;>
      cases hcw : crossed w a.prevTime t <;>
        simp [AlertState.shown, hsw, hcw, List.count_append] <;>
          split_ifs <;> simp_all
  · simp [AlertState.shown]
  · cases hsc : a.shownCritical <;>
      cases hcc : crossed c a.prevTime t <;>
        simp [AlertState.shown, hsc, hcc, List.count_append] <;>
          split_ifs <;> simp_all
  · simp [AlertState.shown]
  · cases hsf : a.shownFinished <;>
      cases hp : decide (0 < a.prevTime) <;>
        cases htz : decide (t = 0) <;>
          simp [AlertState.shown, hsf, hp, htz, List.count_append] <;>
            split_ifs <;> simp_all

lemma alertRun_shown_mono (w c : Int) (os : List Obs) (a : AlertState)
    (k : AlertKind) (h : a.shown k = true) :
    ((alertRun w c a os).1).shown k = true := by
  induction os generalizing a with
  | nil => exact h
  | cons o os ih =>
    simp only [alertRun]
    exact ih _ (alertEffect_shown_mono _ _ _ _ _ _ _ h)

/-- Exact count of one alert kind over a whole delivered sequence: one
exactly when the tag flips over the sequence, zero otherwise.  In
particular each kind fires at most once between clears of
`alertsShownRef`. -/
lemma alertRun_count (w c : Int) (os : List Obs) (a : AlertState)
    (k : AlertKind) :
    ((alertRun w c a os).2).count k =
      (if a.shown k = false ∧ ((alertRun w c a os).1).shown k = true
        then 1 else 0) := by
  induction os generalizing a with
  | nil => simp [alertRun]
  | cons o os ih =>
    simp only [alertRun, List.count_append]
    rw [alertEffect_count, ih]
    cases h0 : a.shown k with
    | true =>
      have h1 := alertEffect_shown_mono w c o.timeRemaining o.isRunning
        o.isFinished a k h0
      have h2 := alertRun_shown_mono w c os _ k h1
      simp [h0, h1, h2]
    | false =>
      cases h1 : ((alertEffect w c o.timeRemaining o.isRunning
        o.isFinished a).1).shown k with
      | true =>
        have h2 := alertRun_shown_mono w c os _ k h1
        simp [h0, h1, h2]
      | false => simp [h0, h1]

lemma flagsInv_applyOp {cfg : TimerConfig} {s : TimerState}
    (h : FlagsInv s) (op : TimerOp) : FlagsInv (applyOp cfg s op) := by
  cases op with
  | start =>
    simp only [applyOp, start]
    split
    · exact h
    · split
      · exact h
      · rename_i hnf _
        simp_all [FlagsInv, Bool.not_eq_true]
  | pause =>
    simp only [applyOp, pause]
    split
    · exact h
    · rename_i hcond
      simp_all [FlagsInv]
  | toggle =>
    simp only [applyOp, toggle]
    split
    · exact h
    · split <;> simp_all [FlagsInv]
  | reset => simp [applyOp, reset, initTimerState, FlagsInv]
  | tick =>
    simp only [applyOp]
    split
    · rename_i harm
      have hrun : s.isRunning = true := by
        cases hr : s.isRunning <;> simp [hr] at harm ⊢
      simp only [tickUpdate]
      split
      · simp_all [FlagsInv]
      · split <;> simp_all [FlagsInv]
    · exact h

lemma flagsInv_applyOps {cfg : TimerConfig} {s : TimerState}
    (h : FlagsInv s) (ops : List TimerOp) :
    FlagsInv (applyOps cfg s ops) := by
  induction ops generalizing s with
  | nil => exact h
  | cons op ops ih => exact ih (flagsInv_applyOp h op)

lemma flagsInv_reachable {cfg : TimerConfig} {s : TimerState}
    (h : Reachable cfg s) : FlagsInv s := by
  obtain ⟨ops, rfl⟩ := h
  exact flagsInv_applyOps (by simp [initTimerState, FlagsInv]) ops

/-! ## Ledger lemmas -/

lemma bumpCount_total (acc : CountRecord) (v : Violation) :
    (bumpCount acc v).MULTIPLE_FACES + (bumpCount acc v).TAB_SWITCH +
      (bumpCount acc v).PROHIBITED_APP =
    acc.MULTIPLE_FACES + acc.TAB_SWITCH + acc.PROHIBITED_APP + 1 := by
  cases hv : v.type <;> simp [bumpCount, hv] <;> omega

lemma foldl_bumpCount_total (vs : List Violation) (acc : CountRecord) :
    (vs.foldl bumpCount acc).MULTIPLE_FACES +
      (vs.foldl bumpCount acc).TAB_SWITCH +
      (vs.foldl bumpCount acc).PROHIBITED_APP =
    acc.MULTIPLE_FACES + acc.TAB_SWITCH + acc.PROHIBITED_APP + vs.length := by
  induction vs generalizing acc with
  | nil => simp
  | cons v vs ih =>
    simp only [List.foldl_cons, List.length_cons]
    rw [ih, bumpCount_total]
    omega

lemma foldl_bumpCount_get_of_not_mem (ty : ViolationType)
    (vs : List Violation) (acc : CountRecord)
    (h : ty ∉ vs.map Violation.type) :
    (vs.foldl bumpCount acc).get ty = acc.get ty := by
  induction vs generalizing acc with
  | nil => rfl
  | cons v vs ih =>
    simp only [List.map_cons, List.mem_cons] at h
    push_neg at h
    simp only [List.foldl_cons]
    rw [ih _ h.2]
    cases hv : v.type <;> cases ty <;>
      simp_all [bumpCount, CountRecord.get, hv]

lemma addAll_eq (adds : List (Nat × Nat × ViolationType))
    (prev : List Violation) :
    addAll prev adds =
      prev ++ adds.map (fun x =>
        { id := x.1
          type := x.2.2
          timestamp := x.2.1
          message := VIOLATION_LABELS x.2.2 }) := by
  induction adds generalizing prev with
  | nil => simp [addAll]
  | cons a rest ih =>
    obtain ⟨i, ts, ty⟩ := a
    simp only [addAll, addViolation, List.map_cons]
    rw [ih]
    simp

/-- Firing conditions of a single run of the alert effect: an alert is
fired only while the observed snapshot is running and not finished, only
when its tag is not yet in `alertsShownRef`, and only on a downward
crossing of its threshold (strictly above before, at-or-below now; the
completion alert requires exactly zero now). -/
lemma alertEffect_mem (w c t : Int) (r f : Bool) (a : AlertState)
    (k : AlertKind) (h : k ∈ (alertEffect w c t r f a).2) :
    r = true ∧ f = false ∧ a.shown k = false ∧
      (match k with
       | .warning => w < a.prevTime ∧ t ≤ w
       | .critical => c < a.prevTime ∧ t ≤ c
       | .finished => 0 < a.prevTime ∧ t = 0) := by
  cases k <;> simp only [alertEffect] at h <;>
    revert h <;> split <;>
      rename_i hg <;>
        simp_all [crossed, List.mem_append, AlertState.shown]

/-! ## Claims -/

/-- C3: the threshold classifier is the pure total function mapping, for
all integers with `0 ≤ critical < warning`: `remaining ≤ critical` to
Critical, `critical < remaining ≤ warning` to Warning, and
`remaining > warning` to Normal; in particular both boundaries are
inclusive and critical wins ties
(`classify(critical) = Critical`, `classify(warning) = Warning`,
`classify(warning+1) = Normal`). -/
theorem C3_classifier_total_function :
    ∀ remaining warning critical : Int,
      0 ≤ critical → critical < warning →
      (remaining ≤ critical →
        getTimerStatus remaining warning critical = .critical) ∧
      (critical < remaining → remaining ≤ warning →
        getTimerStatus remaining warning critical = .warning) ∧
      (warning < remaining →
        getTimerStatus remaining warning critical = .normal) ∧
      getTimerStatus critical warning critical = .critical ∧
      getTimerStatus warning warning critical = .warning ∧
      getTimerStatus (warning + 1) warning critical = .normal := by
  intro r w c _hc hcw
  refine ⟨?_, ?_, ?_, ?_, ?_, ?_⟩ <;>
    (intros; simp only [getTimerStatus]; split_ifs <;> first | rfl | omega)

/-- C3 witness: the classifier theorem instantiated at
`warning = 30, critical = 10` and the remaining times 5, 20, 31. -/
theorem C3_classifier_total_function_witness :
    getTimerStatus 5 30 10 = .critical ∧
    getTimerStatus 20 30 10 = .warning ∧
    getTimerStatus 31 30 10 = .normal ∧
    getTimerStatus 10 30 10 = .critical ∧
    getTimerStatus 30 30 10 = .warning ∧
    getTimerStatus (30 + 1) 30 10 = .normal := by
  have h := C3_classifier_total_function 5 30 10 (by decide) (by decide)
  have h20 := C3_classifier_total_function 20 30 10 (by decide) (by decide)
  have h31 := C3_classifier_total_function 31 30 10 (by decide) (by decide)
  exact ⟨h.1 (by decide), h20.2.1 (by decide) (by decide),
    h31.2.2.1 (by decide), h.2.2.2.1, h.2.2.2.2.1, h.2.2.2.2.2⟩

/-- C5: in every reachable state of the timer engine — the initial
state, after every tick including the final one, and after reset — the
stored status equals the classifier applied to the stored remaining time
and the configured thresholds. -/
theorem C5_status_always_classifier :
    ∀ (cfg : TimerConfig) (s : TimerState),
      ValidConfig cfg → Reachable cfg s →
      s.status = getTimerStatus s.timeRemaining cfg.warningThreshold
        cfg.criticalThreshold := by
  intro cfg s hv hr
  exact statusInv_reachable hv.1 hr

/-- C5 witness: the invariant instantiated after a run of
`start; tick; tick; tick; reset` on `total=3, warning=2, critical=1`. -/
theorem C5_status_always_classifier_witness :
    (applyOps ⟨3, 2, 1⟩ (initTimerState ⟨3, 2, 1⟩)
        [.start, .tick, .tick, .tick, .reset]).status =
      getTimerStatus
        (applyOps ⟨3, 2, 1⟩ (initTimerState ⟨3, 2, 1⟩)
          [.start, .tick, .tick, .tick, .reset]).timeRemaining 2 1 :=
  C5_status_always_classifier ⟨3, 2, 1⟩ _ (by decide)
    ⟨[.start, .tick, .tick, .tick, .reset], rfl⟩

/-- C10: in every state reachable from the initial state via start,
pause, toggle, tick and reset, at most one of the flags `isRunning`,
`isPaused`, `isFinished` is true, so the boolean triple encodes exactly
one of the four phases (Idle being all-false). -/
theorem C10_phase_flags_mutually_exclusive :
    ∀ (cfg : TimerConfig) (s : TimerState), Reachable cfg s →
      s.isRunning.toNat + s.isPaused.toNat + s.isFinished.toNat ≤ 1 := by
  intro cfg s hr
  exact flagsInv_reachable hr

/-- C10 witness: exclusivity instantiated after
`start; tick; pause; toggle` on `total=3, warning=2, critical=1`. -/
theorem C10_phase_flags_mutually_exclusive_witness :
    (applyOps ⟨3, 2, 1⟩ (initTimerState ⟨3, 2, 1⟩)
        [.start, .tick, .pause, .toggle]).isRunning.toNat +
      (applyOps ⟨3, 2, 1⟩ (initTimerState ⟨3, 2, 1⟩)
        [.start, .tick, .pause, .toggle]).isPaused.toNat +
      (applyOps ⟨3, 2, 1⟩ (initTimerState ⟨3, 2, 1⟩)
        [.start, .tick, .pause, .toggle]).isFinished.toNat ≤ 1 :=
  C10_phase_flags_mutually_exclusive ⟨3, 2, 1⟩ _
    ⟨[.start, .tick, .pause, .toggle], rfl⟩

/-- C7: the timer operations are total functions and invalid transitions
leave the state unchanged: `start` is a no-op from a running (un-paused)
state and from a finished state, two consecutive `start`s equal one, and
`pause` is a no-op whenever the timer is not running (in particular when
finished). -/
theorem C7_invalid_transitions_are_noops :
    (∀ s : TimerState, s.isRunning = true → s.isPaused = false →
      start s = s) ∧
    (∀ s : TimerState, s.isFinished = true → start s = s) ∧
    (∀ s : TimerState, start (start s) = start s) ∧
    (∀ s : TimerState, s.isRunning = false → pause s = s) ∧
    (∀ s : TimerState, s.isFinished = true → pause s = s) := by
  refine ⟨?_, ?_, ?_, ?_, ?_⟩
  · intro s hr hp
    simp [start, hr, hp]
  · intro s hf
    simp [start, hf]
  · intro s
    cases hf : s.isFinished <;> cases hr : s.isRunning <;>
      cases hp : s.isPaused <;> simp [start, hf, hr, hp]
  · intro s hr
    simp [pause, hr]
  · intro s hf
    simp [pause, hf]

/-- C7 witness: the no-ops instantiated at a concrete running state and
a concrete finished state. -/
theorem C7_invalid_transitions_are_noops_witness :
    start { timeRemaining := 5, isRunning := true, isPaused := false,
            isFinished := false, status := .normal } =
      { timeRemaining := 5, isRunning := true, isPaused := false,
        isFinished := false, status := .normal } ∧
    pause { timeRemaining := 0, isRunning := false, isPaused := false,
            isFinished := true, status := .critical } =
      { timeRemaining := 0, isRunning := false, isPaused := false,
        isFinished := true, status := .critical } :=
  ⟨C7_invalid_transitions_are_noops.1 _ rfl rfl,
   C7_invalid_transitions_are_noops.2.2.2.1 _ rfl⟩

/-- C8: while the timer is running, paused or finished, every
configuration handler returns the configuration unchanged and the
reconfiguration effect leaves the timer state unchanged; while Idle
(all flags false), the reconfiguration effect replaces the timer state
with the fresh state of the new configuration, recomputing remaining to
the new total and status from the new thresholds. -/
theorem C8_config_locked_after_start :
    (∀ (c : ExamConfig) (m : Int) (t : TimerState),
      isConfigLocked t = true →
      handleDurationChange (isConfigLocked t) c m = c ∧
      handleWarningChange (isConfigLocked t) c m = c ∧
      handleCriticalChange (isConfigLocked t) c m = c ∧
      idleReconfigEffect (toSeconds c) t = t) ∧
    (∀ (c : ExamConfig) (t : TimerState),
      isConfigLocked t = false →
      idleReconfigEffect (toSeconds c) t = initTimerState (toSeconds c) ∧
      (idleReconfigEffect (toSeconds c) t).timeRemaining =
        c.duration * 60 ∧
      (idleReconfigEffect (toSeconds c) t).status =
        getTimerStatus (c.duration * 60) (c.warningAt * 60)
          (c.criticalAt * 60)) := by
  constructor
  · intro c m t hl
    refine ⟨by simp [handleDurationChange, hl],
      by simp [handleWarningChange, hl],
      by simp [handleCriticalChange, hl], ?_⟩
    simp only [isConfigLocked, Bool.or_eq_true] at hl
    simp only [idleReconfigEffect]
    split
    · rename_i hguard
      simp only [Bool.and_eq_true, Bool.not_eq_true'] at hguard
      rcases hl with (hl | hl) | hl <;> simp [hl] at hguard
    · rfl
  · intro c t hl
    simp only [isConfigLocked, Bool.or_eq_false_iff] at hl
    obtain ⟨⟨h1, h2⟩, h3⟩ := hl
    simp [idleReconfigEffect, h1, h2, h3, initTimerState, toSeconds]

/-- C8 witness: the handlers instantiated at a running state (locked)
and the reconfiguration effect at the fresh idle state (unlocked). -/
theorem C8_config_locked_after_start_witness :
    handleDurationChange
        (isConfigLocked (⟨5, true, false, false, .normal⟩ : TimerState))
        ⟨45, 5, 1⟩ 30 = ⟨45, 5, 1⟩ ∧
    idleReconfigEffect (toSeconds ⟨30, 5, 1⟩)
        (⟨2700, false, false, false, .normal⟩ : TimerState) =
      initTimerState (toSeconds ⟨30, 5, 1⟩) :=
  ⟨(C8_config_locked_after_start.1 ⟨45, 5, 1⟩ 30 _ (by decide)).1,
   (C8_config_locked_after_start.2 ⟨30, 5, 1⟩ _ (by decide)).1⟩

/-- C9: a sequence of N `add` calls on an empty (or cleared) ledger
yields a `countByType` record over all three violation types whose
counts sum to N, with types absent from the sequence counted 0; and
after `clear` every count is 0. -/
theorem C9_count_by_type :
    (∀ adds : List (Nat × Nat × ViolationType),
      (countByType (addAll [] adds)).MULTIPLE_FACES +
        (countByType (addAll [] adds)).TAB_SWITCH +
        (countByType (addAll [] adds)).PROHIBITED_APP = adds.length) ∧
    (∀ (adds : List (Nat × Nat × ViolationType)) (ty : ViolationType),
      ty ∉ adds.map (fun x => x.2.2) →
      (countByType (addAll [] adds)).get ty = 0) ∧
    (∀ l : List Violation,
      countByType (clearViolations l) =
        { MULTIPLE_FACES := 0, TAB_SWITCH := 0, PROHIBITED_APP := 0 }) := by
  refine ⟨?_, ?_, ?_⟩
  · intro adds
    rw [countByType, foldl_bumpCount_total, addAll_eq]
    simp
  · intro adds ty hty
    rw [countByType, foldl_bumpCount_get_of_not_mem]
    · cases ty <;> rfl
    · rw [addAll_eq]
      simpa [List.map_map, Function.comp] using hty
  · intro l
    rfl

/-- C9 witness: three adds (two tab switches, one multiple-faces) from
the empty ledger sum to 3, with the absent type at 0, and clearing a
non-empty ledger zeroes every count. -/
theorem C9_count_by_type_witness :
    (countByType (addAll []
        [(1, 10, .TAB_SWITCH), (2, 20, .MULTIPLE_FACES),
          (3, 30, .TAB_SWITCH)])).MULTIPLE_FACES +
      (countByType (addAll []
        [(1, 10, .TAB_SWITCH), (2, 20, .MULTIPLE_FACES),
          (3, 30, .TAB_SWITCH)])).TAB_SWITCH +
      (countByType (addAll []
        [(1, 10, .TAB_SWITCH), (2, 20, .MULTIPLE_FACES),
          (3, 30, .TAB_SWITCH)])).PROHIBITED_APP = 3 ∧
    (countByType (addAll []
        [(1, 10, .TAB_SWITCH), (2, 20, .MULTIPLE_FACES),
          (3, 30, .TAB_SWITCH)])).get .PROHIBITED_APP = 0 ∧
    countByType (clearViolations (addAll [] [(1, 10, .TAB_SWITCH)])) =
      { MULTIPLE_FACES := 0, TAB_SWITCH := 0, PROHIBITED_APP := 0 } :=
  ⟨C9_count_by_type.1 _, C9_count_by_type.2.1 _ _ (by decide),
   C9_count_by_type.2.2 _⟩

/-- C6: invoking the restart handler from any prior state restores
remaining to the full duration with all three phase flags false (phase
Idle), re-arms all three alerts (the `alertsShownRef` record becomes
empty again) and empties the violation ledger. -/
theorem C6_reset_restores_everything :
    ∀ (cfg : TimerConfig) (s : SysState) (l : List Violation),
      ValidConfig cfg →
      (handleRestart cfg s l).1.timer.timeRemaining = cfg.initialDuration ∧
      (handleRestart cfg s l).1.timer.isRunning = false ∧
      (handleRestart cfg s l).1.timer.isPaused = false ∧
      (handleRestart cfg s l).1.timer.isFinished = false ∧
      (handleRestart cfg s l).1.alerts.shownWarning = false ∧
      (handleRestart cfg s l).1.alerts.shownCritical = false ∧
      (handleRestart cfg s l).1.alerts.shownFinished = false ∧
      (handleRestart cfg s l).2 = [] := by
  intro cfg s l hv
  obtain ⟨_hc, _hcw, hwt⟩ := hv
  simp [handleRestart, sysStep, applyOp, reset, initTimerState,
    alertEffect, alertResetEffect, clearViolations, hwt]

/-- C6 witness: restart applied to a finished dirty state with all
alerts fired and a non-empty ledger, for `total=3, warning=2,
critical=1`. -/
theorem C6_reset_restores_everything_witness :
    (handleRestart ⟨3, 2, 1⟩
        ⟨{ timeRemaining := 0, isRunning := false, isPaused := false,
           isFinished := true, status := .critical },
         { prevTime := 0, shownWarning := true, shownCritical := true,
           shownFinished := true }⟩
        (addAll [] [(1, 10, .TAB_SWITCH)])).1.timer.timeRemaining = 3 ∧
    (handleRestart ⟨3, 2, 1⟩
        ⟨{ timeRemaining := 0, isRunning := false, isPaused := false,
           isFinished := true, status := .critical },
         { prevTime := 0, shownWarning := true, shownCritical := true,
           shownFinished := true }⟩
        (addAll [] [(1, 10, .TAB_SWITCH)])).1.alerts.shownFinished =
      false ∧
    (handleRestart ⟨3, 2, 1⟩
        ⟨{ timeRemaining := 0, isRunning := false, isPaused := false,
           isFinished := true, status := .critical },
         { prevTime := 0, shownWarning := true, shownCritical := true,
           shownFinished := true }⟩
        (addAll [] [(1, 10, .TAB_SWITCH)])).2 = [] := by
  have h := C6_reset_restores_everything ⟨3, 2, 1⟩
    ⟨{ timeRemaining := 0, isRunning := false, isPaused := false,
       isFinished := true, status := .critical },
     { prevTime := 0, shownWarning := true, shownCritical := true,
       shownFinished := true }⟩
    (addAll [] [(1, 10, .TAB_SWITCH)]) (by decide)
  exact ⟨h.1, h.2.2.2.2.2.2.1, h.2.2.2.2.2.2.2⟩

/-- C2: from any reachable running state, one tick decrements remaining
by exactly 1; when the decrement reaches 0 the same step clears
`isRunning` and sets `isFinished` (so no reachable state has
remaining = 0 while running), and otherwise the step recomputes the
status with the classifier; concretely, for `total=60, warning=30,
critical=10` started from Idle, after 30 ticks the status is Warning,
after 50 ticks Critical, and after 60 ticks the phase is Finished with
remaining = 0. -/
theorem C2_tick_decrements_and_finishes_atomically :
    (∀ (cfg : TimerConfig) (s : TimerState),
      ValidConfig cfg → Reachable cfg s → s.isRunning = true →
      (applyOp cfg s .tick).timeRemaining = s.timeRemaining - 1 ∧
      (s.timeRemaining = 1 →
        (applyOp cfg s .tick).isFinished = true ∧
        (applyOp cfg s .tick).isRunning = false) ∧
      (1 < s.timeRemaining →
        (applyOp cfg s .tick).isFinished = false ∧
        (applyOp cfg s .tick).isRunning = true ∧
        (applyOp cfg s .tick).status =
          getTimerStatus (s.timeRemaining - 1) cfg.warningThreshold
            cfg.criticalThreshold)) ∧
    (∀ (cfg : TimerConfig) (s : TimerState),
      ValidConfig cfg → Reachable cfg s →
      ¬(s.timeRemaining = 0 ∧ s.isRunning = true)) ∧
    ((applyOps ⟨60, 30, 10⟩ (initTimerState ⟨60, 30, 10⟩)
        (.start :: List.replicate 30 .tick)).status = .warning ∧
      (applyOps ⟨60, 30, 10⟩ (initTimerState ⟨60, 30, 10⟩)
        (.start :: List.replicate 50 .tick)).status = .critical ∧
      (applyOps ⟨60, 30, 10⟩ (initTimerState ⟨60, 30, 10⟩)
        (.start :: List.replicate 60 .tick)).isFinished = true ∧
      (applyOps ⟨60, 30, 10⟩ (initTimerState ⟨60, 30, 10⟩)
        (.start :: List.replicate 60 .tick)).timeRemaining = 0) := by
  have key : ∀ (cfg : TimerConfig) (s : TimerState),
      ValidConfig cfg → Reachable cfg s →
      s.isRunning = true → s.isFinished = false ∧ 1 ≤ s.timeRemaining := by
    intro cfg s hv hr hrun
    obtain ⟨hc, hcw, hwt⟩ := hv
    have ht : (1 : Int) ≤ cfg.initialDuration := by omega
    obtain ⟨hflags, hlive, _hfin⟩ := engineInv_reachable ht hr
    have hnf : s.isFinished = false := by
      cases hf : s.isFinished
      · rfl
      · rw [hrun, hf] at hflags
        simp at hflags
    exact ⟨hnf, hlive hnf⟩
  refine ⟨?_, ?_, ?_⟩
  · intro cfg s hv hr hrun
    obtain ⟨hnf, h1⟩ := key cfg s hv hr hrun
    have harm : (s.isRunning && !s.isFinished) = true := by
      simp [hrun, hnf]
    simp only [applyOp, harm, if_true]
    simp only [tickUpdate]
    refine ⟨?_, ?_, ?_⟩
    · split_ifs <;> simp <;> omega
    · intro hone
      split_ifs <;> simp_all
    · intro hgt
      split_ifs with h2 h3
      · omega
      · omega
      · simp [hrun, hnf]
  · intro cfg s hv hr hz
    obtain ⟨_hnf, h1⟩ := key cfg s hv hr hz.2
    omega
  · decide

/-- C2 witness: the tick theorem applied to the running state reached by
`start` on `total=3, warning=2, critical=1`; its tick decrements 3
to 2. -/
theorem C2_tick_decrements_and_finishes_atomically_witness :
    (applyOp ⟨3, 2, 1⟩
        (applyOps ⟨3, 2, 1⟩ (initTimerState ⟨3, 2, 1⟩) [.start])
        .tick).timeRemaining =
      (applyOps ⟨3, 2, 1⟩ (initTimerState ⟨3, 2, 1⟩) [.start]).timeRemaining
        - 1 :=
  (C2_tick_decrements_and_finishes_atomically.1 ⟨3, 2, 1⟩ _
    (by decide) ⟨[.start], rfl⟩ (by decide)).1

/-- C4: each of the three alert triggers fires at most once between
clears of the alert record; a trigger fires only while the observed
snapshot is running and not finished, only while its record tag is
still unset, and only on a strict downward crossing (previous value
strictly above the threshold, current value at or below it — exactly 0
for the completion trigger), never by mere equality; and re-delivering
the identical snapshot cannot re-fire an alert just fired. -/
theorem C4_alerts_fire_at_most_once_on_strict_crossing :
    (∀ (w c t0 : Int) (os : List Obs) (k : AlertKind),
      ((alertRun w c (initAlertState t0) os).2).count k ≤ 1) ∧
    (∀ (w c t : Int) (r f : Bool) (a : AlertState) (k : AlertKind),
      k ∈ (alertEffect w c t r f a).2 →
      r = true ∧ f = false ∧ a.shown k = false ∧
      (match k with
        | .warning => w < a.prevTime ∧ t ≤ w
        | .critical => c < a.prevTime ∧ t ≤ c
        | .finished => 0 < a.prevTime ∧ t = 0)) ∧
    (∀ (w c t : Int) (r f : Bool) (a : AlertState) (k : AlertKind),
      k ∈ (alertEffect w c t r f a).2 →
      k ∉ (alertEffect w c t r f (alertEffect w c t r f a).1).2) := by
  refine ⟨?_, ?_, ?_⟩
  · intro w c t0 os k
    rw [alertRun_count]
    split <;> simp
  · intro w c t r f a k h
    have hm := alertEffect_mem w c t r f a k h
    refine ⟨hm.1, hm.2.1, hm.2.2.1, ?_⟩
    cases k <;> exact hm.2.2.2
  · intro w c t r f a k h1 h2
    have m2 := alertEffect_mem w c t r f _ k h2
    have hpos : 0 < ((alertEffect w c t r f a).2).count k :=
      List.count_pos_iff.mpr h1
    rw [alertEffect_count] at hpos
    split at hpos
    · rename_i hcond
      rw [hcond.2] at m2
      exact absurd m2.2.2.1 (by simp)
    · exact absurd hpos (by simp)

/-- C4 witness: the at-most-once bound on the run delivering the
crossing snapshot `remaining=59` twice, and the non-re-fire of the
warning alert on the second identical delivery. -/
theorem C4_alerts_fire_at_most_once_on_strict_crossing_witness :
    ((alertRun 60 10 (initAlertState 120)
        [⟨59, true, false⟩, ⟨59, true, false⟩]).2).count .warning ≤ 1 ∧
    .warning ∉ (alertEffect 60 10 59 true false
        ((alertEffect 60 10 59 true false (initAlertState 120)).1)).2 :=
  ⟨C4_alerts_fire_at_most_once_on_strict_crossing.1 60 10 120
      [⟨59, true, false⟩, ⟨59, true, false⟩] .warning,
   C4_alerts_fire_at_most_once_on_strict_crossing.2.2 60 10 59 true false
      (initAlertState 120) .warning (by decide)⟩

/-- C1: counterevidence for the completion alert.  In the composed
system with `total=3, warning=2, critical=1`, the run
`start; tick; tick; tick` passes through remaining = 1 while running,
and its final tick moves remaining to 0 and finishes the run — the
downward crossing `previous > 0 ∧ current = 0` the claim describes —
yet the complete list of alerts fired over the whole run is
`[warning, critical]`: the "time's up" notification and its tone are
never emitted, because the state carrying remaining = 0 also carries
`isFinished = true` and `isRunning = false`, which the alert effect's
early-return guard filters out before the completion branch can run. -/
theorem C1_completion_alert_never_fires :
    (sysRun ⟨3, 2, 1⟩ (sysInit ⟨3, 2, 1⟩)
        [.start, .tick, .tick]).1.timer.timeRemaining = 1 ∧
    (sysRun ⟨3, 2, 1⟩ (sysInit ⟨3, 2, 1⟩)
        [.start, .tick, .tick]).1.timer.isRunning = true ∧
    (sysRun ⟨3, 2, 1⟩ (sysInit ⟨3, 2, 1⟩)
        [.start, .tick, .tick, .tick]).1.timer.timeRemaining = 0 ∧
    (sysRun ⟨3, 2, 1⟩ (sysInit ⟨3, 2, 1⟩)
        [.start, .tick, .tick, .tick]).1.timer.isFinished = true ∧
    (sysRun ⟨3, 2, 1⟩ (sysInit ⟨3, 2, 1⟩)
        [.start, .tick, .tick, .tick]).2 = [.warning, .critical] ∧
    ((sysRun ⟨3, 2, 1⟩ (sysInit ⟨3, 2, 1⟩)
        [.start, .tick, .tick, .tick]).2).count .finished = 0 := by
  decide

end ExamTimer
